import Mathlib

/-!
Shallow embedding of the Power BI connector (Odoo module `powerbi_connector`):
the token gate and data API of `controllers/powerbi_api.py`, the Azure AD
broker, remote-client and sync engine of `models/powerbi_settings.py`.
Odoo Char/Text/Selection fields are `Option String` (Lean `none` plays the
role of an unset/falsy field), Datetime fields are `Option Nat` timestamps,
the settings table is a `List PowerBISettings` in id order, and external HTTP
calls are passed in as explicit outcome values.
-/

namespace PowerBI

/-- Python truthiness of an optional string field: `None` and `""` are falsy. -/
def truthyO : Option String → Bool
  | none => false
  | some s => s ≠ ""

/-- Python `str.strip()` (the `\x0b`/`\x0c` whitespace kinds are not
modelled): drop leading and trailing whitespace. -/
def pyStrip (s : String) : String :=
  String.mk (((s.toList.dropWhile Char.isWhitespace).reverse.dropWhile
    Char.isWhitespace).reverse)

/-- Split a character list on a separator character, keeping empty pieces,
as Python `str.split(sep)` does for a one-character separator. -/
def splitOnChar (c : Char) : List Char → List (List Char)
  | [] => [[]]
  | x :: xs =>
    let r := splitOnChar c xs
    if x = c then [] :: r
    else
      match r with
      | [] => [[x]]
      | y :: ys => (x :: y) :: ys

/-- Python `str.split(sep)` for a one-character separator. -/
def pySplit (s : String) (c : Char) : List String :=
  (splitOnChar c s.toList).map String.mk

/-- Data model of `powerbi.settings` (powerbi_settings.py lines 14-38). -/
structure PowerBISettings where
  name : String
  token : Option String
  allowed_models : Option String
  is_active : Bool
  max_records : Int
  created_date : Option Nat
  last_used : Option Nat
  tenant_id : Option String
  client_id : Option String
  client_secret : Option String
  default_access_level : Option String
  deriving DecidableEq

/-- `get_active_settings` (powerbi_settings.py lines 210-213): first record
with `is_active = True`, in table order. -/
def get_active_settings (store : List PowerBISettings) : Option PowerBISettings :=
  (store.filter (·.is_active)).head?

/-- `get_allowed_models_list` (powerbi_settings.py lines 215-223): split the
active record's `allowed_models` text on newlines, strip, drop empties. -/
def get_allowed_models_list (store : List PowerBISettings) : List String :=
  match get_active_settings store with
  | none => []
  | some settings =>
    let models_text := (settings.allowed_models).getD ""
    ((pySplit models_text (Char.ofNat 10)).map pyStrip).filter (· ≠ "")

/-- `validate_token` (powerbi_settings.py lines 225-231). -/
def validate_token (store : List PowerBISettings) (provided_token : String) : Bool :=
  match get_active_settings store with
  | none => false
  | some settings =>
    if truthyO settings.token = false then false
    else provided_token = settings.token.getD ""

/-- `update_last_used` (powerbi_settings.py lines 233-235): write `last_used`
on the active record (the recordset held by the gated endpoints). -/
def update_last_used (store : List PowerBISettings) (now : Nat) : List PowerBISettings :=
  match store with
  | [] => []
  | c :: rest =>
    if c.is_active then { c with last_used := some now } :: rest
    else c :: update_last_used rest now

/-- `_get_token_from_request` (powerbi_api.py lines 14-21): header
`X-PowerBI-Token` takes precedence when truthy, else the `token` query
parameter. -/
def _get_token_from_request (header query : Option String) : Option String :=
  if truthyO header then header else query

/-- Outcome of `_validate_request`. -/
inductive ValidationResult where
  | invalid (msg : String)
  | valid (cfg : PowerBISettings)
  deriving DecidableEq

/-- `_validate_request` (powerbi_api.py lines 23-39). -/
def _validate_request (header query : Option String) (store : List PowerBISettings) :
    ValidationResult :=
  let token := _get_token_from_request header query
  if truthyO token = false then .invalid "token_missing"
  else if validate_token store (token.getD "") = false then .invalid "token_invalid"
  else
    match get_active_settings store with
    | none => .invalid "no_active_configuration"
    | some settings => .valid settings

/-- Bodies of the JSON responses built by the controller, one constructor per
`_format_response` call site shape. -/
inductive ApiResult (Rec : Type) where
  | unauthorized (msg : String)
  | forbidden (msg : String)
  | badRequest (msg : String)
  | notFound (msg : String)
  | okHealth
  | okModels (models : List String)
  | okList (records : List Rec) (count : Nat) (total_count : Nat) (limit : Int) (offset : Int)
  | okRecord (record : Rec)
  deriving DecidableEq

/-- HTTP status code attached by `_format_response` to each result. -/
def statusOf {Rec : Type} : ApiResult Rec → Nat
  | .unauthorized _ => 401
  | .forbidden _ => 403
  | .badRequest _ => 400
  | .notFound _ => 404
  | _ => 200

/-- `health_check` (powerbi_api.py lines 59-82).  Note the source returns the
healthy response without calling `update_last_used`; the store is returned
unchanged. -/
def health_check (header query : Option String) (store : List PowerBISettings)
    (now : Nat) : ApiResult Unit × List PowerBISettings :=
  match _validate_request header query store with
  | .invalid msg => (.unauthorized msg, store)
  | .valid _ =>
    let _ := now
    (.okHealth, store)

/-- `list_models` (powerbi_api.py lines 84-117). -/
def list_models (header query : Option String) (store : List PowerBISettings)
    (now : Nat) : ApiResult Unit × List PowerBISettings :=
  match _validate_request header query store with
  | .invalid msg => (.unauthorized msg, store)
  | .valid _ =>
    let allowed_models := get_allowed_models_list store
    (.okModels allowed_models, update_last_used store now)

/-- Python `int(str)` on a query-string value: optional surrounding
whitespace, optional sign, decimal digits (digit-group underscores are not
modelled); `none` models the `ValueError` caught by the endpoint. -/
def pyInt? (s : String) : Option Int :=
  match (pyStrip s).toList with
  | [] => none
  | c :: rest =>
    let digits : List Char := if c = '-' ∨ c = '+' then rest else c :: rest
    if digits ≠ [] ∧ digits.all Char.isDigit then
      let n : Nat := digits.foldl (fun acc ch => acc * 10 + (ch.toNat - 48)) 0
      some (if c = '-' then -(n : Int) else (n : Int))
    else none

/-- Parsing of the `fields` query parameter (powerbi_api.py lines 223-225):
split on commas, strip, drop empties. -/
def parseFieldsParam (fields_param : String) : List String :=
  if fields_param ≠ "" then
    ((pySplit fields_param (Char.ofNat 44)).map pyStrip).filter (· ≠ "")
  else []

/-- The query parameters of a data API request, each absent or a raw string. -/
structure Kwargs where
  fields : Option String
  domain : Option String
  limit : Option String
  offset : Option String
  order : Option String
  deriving DecidableEq

/-- Domain resolution (powerbi_api.py lines 227-237): when the `domain`
parameter is truthy and not the literal `[]`, run the JSON parse `jparse`
(the `json.loads` library call, supplied as a parameter; `none` models
`JSONDecodeError`); otherwise the domain is the empty domain `emptyD`. -/
def resolveDomain {D : Type} (jparse : String → Option D) (emptyD : D)
    (domain_param : String) : Option D :=
  if domain_param ≠ "" ∧ domain_param ≠ "[]" then jparse domain_param
  else some emptyD

/-- The effective limit (powerbi_api.py line 240):
`min(int(limit_param), settings.max_records) if limit_param else
settings.max_records`, where `limit_param` defaults to `settings.max_records`
itself; `none` models the `ValueError` of `int`. -/
def parseLimitParam (max_records : Int) (limit_param : Option String) : Option Int :=
  match limit_param with
  | none => some max_records
  | some s => if s = "" then some max_records
              else (pyInt? s).map (fun v => min v max_records)

/-- The effective offset (powerbi_api.py line 241). -/
def parseOffsetParam (offset_param : Option String) : Option Int :=
  match offset_param with
  | none => some 0
  | some s => if s = "" then some 0 else pyInt? s

/-- The ORM `search_read` on a table of records `db`: filter by the domain
(`domMatches` gives the domain semantics), apply offset then limit.  Following
the Odoo/SQL behaviour: a negative limit or offset is a database error (the
endpoint turns it into the 400 branch), and a zero limit is falsy, meaning
no LIMIT clause at all. -/
def search_read {D Rec : Type} (domMatches : D → Rec → Bool) (db : List Rec)
    (dom : D) (limit offset : Int) : Except String (List Rec) :=
  if limit < 0 ∨ offset < 0 then .error "sql_error"
  else
    let matched := db.filter (domMatches dom)
    let afterOffset := matched.drop offset.toNat
    .ok (if limit = 0 then afterOffset else afterOffset.take limit.toNat)

/-- The ORM `search_count`: number of records matching the domain, ignoring
limit and offset. -/
def search_count {D Rec : Type} (domMatches : D → Rec → Bool) (db : List Rec)
    (dom : D) : Nat :=
  (db.filter (domMatches dom)).length

/-- `get_model_data` (powerbi_api.py lines 191-283).  `jparse`/`emptyD`
embed `json.loads` and the `[]` domain, `domMatches`/`db` the underlying record
store for `model_name`; field projection and the `order` clause act on
records opaquely and are not observable on the abstract record type `Rec`. -/
def get_model_data {D Rec : Type} (jparse : String → Option D) (emptyD : D)
    (domMatches : D → Rec → Bool) (db : List Rec) (model_name : String)
    (kw : Kwargs) (header query : Option String) (store : List PowerBISettings)
    (now : Nat) : ApiResult Rec × List PowerBISettings :=
  match _validate_request header query store with
  | .invalid msg => (.unauthorized msg, store)
  | .valid settings =>
    let allowed_models := get_allowed_models_list store
    if model_name ∉ allowed_models then (.forbidden "model_not_allowed", store)
    else
      let fields_param := kw.fields.getD ""
      let domain_param := kw.domain.getD "[]"
      let _fields_list := parseFieldsParam fields_param
      match resolveDomain jparse emptyD domain_param with
      | none => (.badRequest "invalid_domain_format", store)
      | some dom =>
        match parseLimitParam settings.max_records kw.limit with
        | none => (.badRequest "data_fetch_error", store)
        | some limit =>
          match parseOffsetParam kw.offset with
          | none => (.badRequest "data_fetch_error", store)
          | some offset =>
            match search_read domMatches db dom limit offset with
            | .error _ => (.badRequest "data_fetch_error", store)
            | .ok records =>
              let total_count := search_count domMatches db dom
              (.okList records records.length total_count limit offset,
               update_last_used store now)

/-- `get_record` (powerbi_api.py lines 285-346).  The table is an
association of numeric ids to records; `browse(record_id).exists()` is the
lookup, `read` returns the record opaquely. -/
def get_record {Rec : Type} (db : List (Nat × Rec)) (model_name : String)
    (record_id : Nat) (kw : Kwargs) (header query : Option String)
    (store : List PowerBISettings) (now : Nat) :
    ApiResult Rec × List PowerBISettings :=
  match _validate_request header query store with
  | .invalid msg => (.unauthorized msg, store)
  | .valid _ =>
    let allowed_models := get_allowed_models_list store
    if model_name ∉ allowed_models then (.forbidden "model_not_allowed", store)
    else
      let fields_param := kw.fields.getD ""
      let _fields_list := parseFieldsParam fields_param
      match db.lookup record_id with
      | none => (.notFound "record_not_found", store)
      | some record => (.okRecord record, update_last_used store now)

/-- The pieces of an HTTP response that the settings model reads: the status
code, whether `resp.json()` succeeds, and the value of the body field the
caller extracts with `.get(...)` (`access_token` for the AAD exchange,
`token` for `GenerateToken`). -/
structure HttpJsonResponse where
  status : Nat
  jsonOk : Bool
  access_token : Option String
  token : Option String
  deriving DecidableEq

/-- Outcome of one `requests.post`/`requests.get`: a network-level exception
or a response.  `requests.raise_for_status` raises exactly on a 4xx or 5xx
status. -/
abbrev HttpOutcome := Except String HttpJsonResponse

/-- Whether `raise_for_status` raises on this response. -/
def raisesForStatus (r : HttpJsonResponse) : Prop :=
  400 ≤ r.status ∧ r.status < 600

instance (r : HttpJsonResponse) : Decidable (raisesForStatus r) :=
  inferInstanceAs (Decidable (_ ∧ _))

/-- Error taxonomy of the settings model; in the source all three are
`ValueError`s distinguished by their message (spec section 7 names them
ConfigurationError, AuthBrokerError and RemoteAPIError). -/
inductive PbiError where
  | configurationError
  | authBrokerError (msg : String)
  | remoteApiError (msg : String)
  deriving DecidableEq

/-- `_get_aad_token` (powerbi_settings.py lines 40-57).  `post` is the
outcome of the single `requests.post` to the token endpoint; the second
component counts outbound network calls actually attempted.  Note the source
returns `resp.json().get('access_token')`, so a passing response whose body
lacks the field yields `none` without raising. -/
def _get_aad_token (cfg : PowerBISettings) (post : HttpOutcome) :
    Except PbiError (Option String) × Nat :=
  if ¬(truthyO cfg.tenant_id ∧ truthyO cfg.client_id ∧ truthyO cfg.client_secret) then
    (.error .configurationError, 0)
  else
    match post with
    | .error e => (.error (.authBrokerError e), 1)
    | .ok r =>
      if raisesForStatus r then (.error (.authBrokerError "http_error"), 1)
      else if r.jsonOk = false then (.error (.authBrokerError "json_decode_error"), 1)
      else (.ok r.access_token, 1)

/-- Python `str.capitalize()`: first character upper-cased, the rest
lower-cased. -/
def strCapitalize (s : String) : String :=
  match s.toList with
  | [] => ""
  | c :: rest => String.mk (c.toUpper :: rest.map Char.toLower)

/-- Python `a or b` on a possibly-falsy optional string. -/
def pyOr (a : Option String) (b : String) : String :=
  match a with
  | some s => if s ≠ "" then s else b
  | none => b

/-- The JSON payload of the `GenerateToken` call (powerbi_settings.py
lines 73-77). -/
structure EmbedPayload where
  accessLevel : String
  datasetId : Option String
  deriving DecidableEq

/-- `generate_report_embed_token` (powerbi_settings.py lines 65-83).  The
AAD exchange happens first, outside the try/except, so its errors propagate
unchanged; `genPost` maps the payload actually sent to the outcome of the
`GenerateToken` POST.  The result is `resp.json().get('token')`. -/
def generate_report_embed_token (cfg : PowerBISettings) (aadPost : HttpOutcome)
    (genPost : EmbedPayload → HttpOutcome) (dataset_id : Option String)
    (access_level : Option String) : Except PbiError (Option String) × Nat :=
  match _get_aad_token cfg aadPost with
  | (.error e, n) => (.error e, n)
  | (.ok _aad, n) =>
    let payload : EmbedPayload :=
      { accessLevel := strCapitalize (pyOr access_level (pyOr cfg.default_access_level "view"))
        datasetId := if truthyO dataset_id then dataset_id else none }
    match genPost payload with
    | .error e => (.error (.remoteApiError e), n + 1)
    | .ok r =>
      if raisesForStatus r then (.error (.remoteApiError "http_error"), n + 1)
      else if r.jsonOk = false then (.error (.remoteApiError "json_decode_error"), n + 1)
      else (.ok r.token, n + 1)

/-- One report as returned by the Power BI REST API (the keys the sync
engine reads with `.get`, `id` taken as present). -/
structure ReportData where
  id : String
  name : Option String
  embedUrl : Option String
  datasetId : Option String
  deriving DecidableEq

instance {ε α : Type} [DecidableEq ε] [DecidableEq α] :
    DecidableEq (Except ε α) := fun a b =>
  match a, b with
  | .error e, .error f => decidable_of_iff (e = f) (by simp)
  | .error _, .ok _ => .isFalse (by simp)
  | .ok _, .error _ => .isFalse (by simp)
  | .ok x, .ok y => decidable_of_iff (x = y) (by simp)

/-- One workspace as returned by the Power BI REST API, together with the
outcome of the per-workspace `get_reports_in_workspace` call (an exception
or the report list). -/
structure WorkspaceData where
  id : String
  name : Option String
  isOnDedicatedCapacity : Bool
  reportsFetch : Except String (List ReportData)
  deriving DecidableEq

/-- Local mirror record of `powerbi.workspace` (powerbi_workspace.py). -/
structure WorkspaceRec where
  id : Nat
  name : String
  workspace_id : String
  is_on_dedicated_capacity : Bool
  state : String
  deriving DecidableEq

/-- Local mirror record of `powerbi.report` (powerbi_report.py). -/
structure ReportRec where
  name : String
  url : String
  workspace_id : String
  report_id : String
  dataset_id : String
  workspace_ref_id : Nat
  deriving DecidableEq

/-- The local database the sync engine reads and writes: both mirror tables
in id order, plus the next free `powerbi.workspace` id. -/
structure SyncState where
  workspaces : List WorkspaceRec
  reports : List ReportRec
  nextId : Nat
  deriving DecidableEq

/-- `workspace_model.search([('workspace_id','=',id)], limit=1)` followed by
`write` (powerbi_settings.py lines 289-295): update the first record with the
matching external id, returning the new table and that record's local id. -/
def updateWorkspaceFirst (w : WorkspaceData) :
    List WorkspaceRec → Option (List WorkspaceRec × Nat)
  | [] => none
  | r :: rest =>
    if r.workspace_id = w.id then
      some ({ r with name := w.name.getD "Unknown",
                     is_on_dedicated_capacity := w.isOnDedicatedCapacity,
                     state := "active" } :: rest, r.id)
    else (updateWorkspaceFirst w rest).map (fun p => (r :: p.1, p.2))

/-- `report_model.search([...], limit=1)` followed by `write`
(powerbi_settings.py lines 311-324): update the first report whose
(workspace external id, report external id) pair matches. -/
def updateReportFirst (wsExtId : String) (refId : Nat) (rd : ReportData) :
    List ReportRec → Option (List ReportRec)
  | [] => none
  | r :: rest =>
    if r.workspace_id = wsExtId ∧ r.report_id = rd.id then
      some ({ r with name := rd.name.getD "Unknown",
                     url := rd.embedUrl.getD "",
                     dataset_id := rd.datasetId.getD "",
                     workspace_ref_id := refId } :: rest)
    else (updateReportFirst wsExtId refId rd rest).map (r :: ·)

/-- The freshly created report record (powerbi_settings.py lines 326-335):
the display name embeds the workspace name for disambiguation. -/
def newReportRec (wsExtId wsName : String) (refId : Nat) (rd : ReportData) :
    ReportRec :=
  { name := rd.name.getD "Unknown" ++ " (" ++ wsName ++ ")"
    url := rd.embedUrl.getD ""
    workspace_id := wsExtId
    report_id := rd.id
    dataset_id := rd.datasetId.getD ""
    workspace_ref_id := refId }

/-- The per-workspace report loop (powerbi_settings.py lines 306-335): upsert
each report in order, counting creates and updates. -/
def syncReportsLoop (wsExtId wsName : String) (refId : Nat) :
    List ReportRec → List ReportData → List ReportRec × Nat × Nat
  | reps, [] => (reps, 0, 0)
  | reps, rd :: rest =>
    match updateReportFirst wsExtId refId rd reps with
    | some reps1 =>
      let (reps2, c, u) := syncReportsLoop wsExtId wsName refId reps1 rest
      (reps2, c, u + 1)
    | none =>
      let reps1 := reps ++ [newReportRec wsExtId wsName refId rd]
      let (reps2, c, u) := syncReportsLoop wsExtId wsName refId reps1 rest
      (reps2, c + 1, u)

/-- One iteration of the workspace loop (powerbi_settings.py lines 283-339):
upsert the workspace, then try its reports; a report-fetch failure is caught
and skips only the report loop of this workspace. -/
def syncWorkspace (st : SyncState) (w : WorkspaceData) : SyncState × Nat × Nat :=
  let wsName := w.name.getD "Unknown"
  let upserted : List WorkspaceRec × Nat × Nat :=
    match updateWorkspaceFirst w st.workspaces with
    | some (l, i) => (l, i, st.nextId)
    | none =>
      (st.workspaces ++ [{ id := st.nextId, name := wsName, workspace_id := w.id,
                           is_on_dedicated_capacity := w.isOnDedicatedCapacity,
                           state := "active" }],
       st.nextId, st.nextId + 1)
  match upserted with
  | (wss, refId, nid) =>
    match w.reportsFetch with
    | .error _ => ({ workspaces := wss, reports := st.reports, nextId := nid }, 0, 0)
    | .ok rds =>
      let (reps, c, u) := syncReportsLoop w.id wsName refId st.reports rds
      ({ workspaces := wss, reports := reps, nextId := nid }, c, u)

/-- The whole workspace loop, accumulating report created/updated counts. -/
def syncAll (st : SyncState) : List WorkspaceData → SyncState × Nat × Nat
  | [] => (st, 0, 0)
  | w :: rest =>
    match syncWorkspace st w with
    | (st1, c1, u1) =>
      match syncAll st1 rest with
      | (st2, c2, u2) => (st2, c1 + c2, u1 + u2)

/-- The notification returned by `action_sync_workspaces`. -/
inductive SyncResult where
  | success (created updated : Nat)
  | noWorkspaces
  | syncError (msg : String)
  deriving DecidableEq

/-- `action_sync_workspaces` (powerbi_settings.py lines 261-361).  `fetchWs`
is the outcome of `get_workspaces` (an exception reaches the outer except and
yields the danger notification, leaving the state untouched). -/
def action_sync_workspaces (fetchWs : Except String (List WorkspaceData))
    (st : SyncState) : SyncResult × SyncState :=
  match fetchWs with
  | .error e => (.syncError e, st)
  | .ok [] => (.noWorkspaces, st)
  | .ok up =>
    match syncAll st up with
    | (st1, c, u) => (.success c u, st1)

/-- Replace each failed per-workspace report fetch with an empty report
list, leaving successful workspaces untouched. -/
def blankFailed (up : List WorkspaceData) : List WorkspaceData :=
  up.map (fun w => match w.reportsFetch with
    | .error _ => { w with reportsFetch := .ok [] }
    | .ok _ => w)

/-- External workspace ids present in the local workspace table. -/
def wsKeys (l : List WorkspaceRec) : List String := l.map (·.workspace_id)

/-- (workspace external id, report external id) pairs in the report table. -/
def repKeys (l : List ReportRec) : List (String × String) :=
  l.map (fun r => (r.workspace_id, r.report_id))

/-! ## Concrete fixtures used by witnesses -/

/-- A concrete active configuration used by the witnesses. -/
def cfg0 : PowerBISettings :=
  { name := "Configuration Power BI", token := some "tok123",
    allowed_models := some "res.partner\naccount.move",
    is_active := true, max_records := 2, created_date := some 0,
    last_used := none, tenant_id := some "tid", client_id := some "cid",
    client_secret := some "sec", default_access_level := some "view" }

/-- A one-row settings table holding `cfg0`. -/
def store0 : List PowerBISettings := [cfg0]

/-- A concrete JSON-shaped domain parse used to instantiate `jparse` in
witnesses: accepts only strings that look like a JSON array. -/
def arrayShapedParse (s : String) : Option Unit :=
  match s.toList with
  | [] => none
  | c :: rest =>
    if c = Char.ofNat 91 ∧ (c :: rest).getLast? = some (Char.ofNat 93) then some ()
    else none

/-- A concrete domain semantics for witnesses: every record matches. -/
def allMatch : Unit → Nat → Bool := fun _ _ => true

/-! ## Helper lemmas -/

theorem truthyO_false_getD {x : Option String} (h : truthyO x = false) :
    x.getD "" = "" := by
  cases x with
  | none => rfl
  | some s => simpa [truthyO] using h

theorem truthyO_true_getD {x : Option String} (h : truthyO x = true) :
    x.getD "" ≠ "" := by
  cases x with
  | none => simp [truthyO] at h
  | some s => simpa [truthyO] using h

theorem validate_request_invalid_iff (h q : Option String)
    (store : List PowerBISettings) :
    (∃ msg, _validate_request h q store = .invalid msg) ↔
      (truthyO (_get_token_from_request h q) = false ∨
       get_active_settings store = none ∨
       ∃ cfg, get_active_settings store = some cfg ∧
         (_get_token_from_request h q).getD "" ≠ cfg.token.getD "") := by
  by_cases ht : truthyO (_get_token_from_request h q) = true
  · cases hg : get_active_settings store with
    | none => simp [_validate_request, validate_token, hg, ht]
    | some cfg =>
      by_cases htc : truthyO cfg.token = true
      · by_cases heq :
          (_get_token_from_request h q).getD "" = cfg.token.getD ""
        · simp [_validate_request, validate_token, hg, ht, htc, heq]
        · simp [_validate_request, validate_token, hg, ht, htc, heq]
      · have h1 : cfg.token.getD "" = "" :=
          truthyO_false_getD (by simpa using htc)
        have h2 : (_get_token_from_request h q).getD "" ≠ "" :=
          truthyO_true_getD ht
        simp [_validate_request, validate_token, hg, ht, htc, h1, h2]
  · have ht' : truthyO (_get_token_from_request h q) = false := by
      simpa using ht
    simp [_validate_request, ht']

theorem validate_request_valid_active {h q : Option String}
    {store : List PowerBISettings} {cfg : PowerBISettings}
    (hv : _validate_request h q store = .valid cfg) :
    get_active_settings store = some cfg := by
  by_cases h1 : truthyO (_get_token_from_request h q) = false
  · simp [_validate_request, h1] at hv
  · by_cases h2 :
      validate_token store ((_get_token_from_request h q).getD "") = false
    · simp [_validate_request, h1, h2] at hv
    · cases hg : get_active_settings store with
      | none => simp [_validate_request, h1, h2, hg] at hv
      | some s =>
        simp [_validate_request, h1, h2, hg] at hv
        simp [hg, hv]

theorem health_check_401_iff (h q : Option String) (store : List PowerBISettings)
    (now : Nat) :
    statusOf (health_check h q store now).1 = 401 ↔
      ∃ msg, _validate_request h q store = .invalid msg := by
  cases hv : _validate_request h q store with
  | invalid msg => simp [health_check, hv, statusOf]
  | valid s => simp [health_check, hv, statusOf]

theorem list_models_401_iff (h q : Option String) (store : List PowerBISettings)
    (now : Nat) :
    statusOf (list_models h q store now).1 = 401 ↔
      ∃ msg, _validate_request h q store = .invalid msg := by
  cases hv : _validate_request h q store with
  | invalid msg => simp [list_models, hv, statusOf]
  | valid s => simp [list_models, hv, statusOf]

theorem get_model_data_401_iff {D Rec : Type} (jparse : String → Option D)
    (emptyD : D) (dm : D → Rec → Bool) (db : List Rec) (m : String)
    (kw : Kwargs) (h q : Option String) (store : List PowerBISettings)
    (now : Nat) :
    statusOf (get_model_data jparse emptyD dm db m kw h q store now).1 = 401 ↔
      ∃ msg, _validate_request h q store = .invalid msg := by
  cases hv : _validate_request h q store with
  | invalid msg => simp [get_model_data, hv, statusOf]
  | valid s =>
    refine iff_of_false ?_ (by simp [hv])
    simp only [get_model_data, hv]
    repeat' split
    all_goals simp [statusOf]

theorem get_record_401_iff {Rec : Type} (db : List (Nat × Rec)) (m : String)
    (rid : Nat) (kw : Kwargs) (h q : Option String)
    (store : List PowerBISettings) (now : Nat) :
    statusOf (get_record db m rid kw h q store now).1 = 401 ↔
      ∃ msg, _validate_request h q store = .invalid msg := by
  cases hv : _validate_request h q store with
  | invalid msg => simp [get_record, hv, statusOf]
  | valid s =>
    refine iff_of_false ?_ (by simp [hv])
    simp only [get_record, hv]
    repeat' split
    all_goals simp [statusOf]

/-- C1: for every inbound data-read request the token gate fails (and every
gated endpoint answers HTTP 401) exactly when the token is absent from both
the `X-PowerBI-Token` header and the `token` query parameter, or no active
configuration exists, or the provided token is not byte-for-byte equal to the
active configuration's stored token; otherwise validation succeeds and
returns the active configuration. -/
theorem token_gate_unauthorized_exact (h q : Option String)
    (store : List PowerBISettings) :
    ((∃ msg, _validate_request h q store = .invalid msg) ↔
      (truthyO (_get_token_from_request h q) = false ∨
       get_active_settings store = none ∨
       ∃ cfg, get_active_settings store = some cfg ∧
         (_get_token_from_request h q).getD "" ≠ cfg.token.getD "")) ∧
    (∀ cfg, _validate_request h q store = .valid cfg →
       get_active_settings store = some cfg) ∧
    (¬(truthyO (_get_token_from_request h q) = false ∨
       get_active_settings store = none ∨
       ∃ cfg, get_active_settings store = some cfg ∧
         (_get_token_from_request h q).getD "" ≠ cfg.token.getD "") →
       ∃ cfg, _validate_request h q store = .valid cfg ∧
         get_active_settings store = some cfg) ∧
    (∀ now, statusOf (health_check h q store now).1 = 401 ↔
       ∃ msg, _validate_request h q store = .invalid msg) ∧
    (∀ now, statusOf (list_models h q store now).1 = 401 ↔
       ∃ msg, _validate_request h q store = .invalid msg) ∧
    (∀ (D Rec : Type) (jparse : String → Option D) (emptyD : D)
       (dm : D → Rec → Bool) (db : List Rec) (m : String) (kw : Kwargs)
       (now : Nat),
       statusOf (get_model_data jparse emptyD dm db m kw h q store now).1 = 401 ↔
         ∃ msg, _validate_request h q store = .invalid msg) ∧
    (∀ (Rec : Type) (db : List (Nat × Rec)) (m : String) (rid : Nat)
       (kw : Kwargs) (now : Nat),
       statusOf (get_record db m rid kw h q store now).1 = 401 ↔
         ∃ msg, _validate_request h q store = .invalid msg) := by
  refine ⟨validate_request_invalid_iff h q store,
          fun cfg hv => validate_request_valid_active hv, ?_,
          fun now => health_check_401_iff h q store now,
          fun now => list_models_401_iff h q store now,
          fun D Rec jparse emptyD dm db m kw now =>
            get_model_data_401_iff jparse emptyD dm db m kw h q store now,
          fun Rec db m rid kw now =>
            get_record_401_iff db m rid kw h q store now⟩
  intro hcond
  cases hvr : _validate_request h q store with
  | invalid msg =>
    exact absurd ((validate_request_invalid_iff h q store).1 ⟨msg, hvr⟩) hcond
  | valid cfg => exact ⟨cfg, rfl, validate_request_valid_active hvr⟩

/-- C1 witness: with the concrete store `store0` and its exact token in the
header, the gate succeeds and returns the active configuration. -/
theorem token_gate_unauthorized_exact_witness :
    ∃ cfg, _validate_request (some "tok123") none store0 = .valid cfg ∧
      get_active_settings store0 = some cfg := by
  refine (token_gate_unauthorized_exact (some "tok123") none store0).2.2.1 ?_
  rintro (hx | hx | ⟨cfg, hcfg, hne⟩)
  · exact absurd hx (by decide)
  · exact absurd hx (by decide)
  · rw [show get_active_settings store0 = some cfg0 from by decide] at hcfg
    injection hcfg with h3
    rw [← h3] at hne
    exact hne (by decide)

/-- C2: for every model name not present in the active configuration's
allow-list, a gated request returns HTTP 403 Forbidden from both the list
endpoint and the single-record endpoint, for all values of the fields,
domain, limit, offset and order query parameters (and the store is left
unchanged). -/
theorem forbidden_model_403 {D Rec : Type} (jparse : String → Option D)
    (emptyD : D) (dm : D → Rec → Bool) (db : List Rec)
    (dbr : List (Nat × Rec)) (m : String) (rid : Nat) (kw kw2 : Kwargs)
    (h q : Option String) (store : List PowerBISettings) (now now2 : Nat)
    (cfg : PowerBISettings)
    (hvalid : _validate_request h q store = .valid cfg)
    (hnot : m ∉ get_allowed_models_list store) :
    get_model_data jparse emptyD dm db m kw h q store now
        = (.forbidden "model_not_allowed", store) ∧
    statusOf (get_model_data jparse emptyD dm db m kw h q store now).1 = 403 ∧
    get_record dbr m rid kw2 h q store now2
        = (.forbidden "model_not_allowed", store) ∧
    statusOf (get_record dbr m rid kw2 h q store now2).1 = 403 := by
  have h1 : get_model_data jparse emptyD dm db m kw h q store now
      = (.forbidden "model_not_allowed", store) := by
    simp [get_model_data, hvalid, hnot]
  have h2 : get_record dbr m rid kw2 h q store now2
      = (.forbidden "model_not_allowed", store) := by
    simp [get_record, hvalid, hnot]
  exact ⟨h1, by rw [h1]; rfl, h2, by rw [h2]; rfl⟩

/-- C2 witness: `crm.lead` is not in `store0`'s allow-list, and a gated
request for it is rejected with 403 by both endpoints. -/
theorem forbidden_model_403_witness :
    get_model_data arrayShapedParse () allMatch [10, 20, 30] "crm.lead"
        ⟨none, some "[1]", some "999", some "3", some "name"⟩
        (some "tok123") none store0 7
      = (.forbidden "model_not_allowed", store0) ∧
    statusOf (get_model_data arrayShapedParse () allMatch [10, 20, 30] "crm.lead"
        ⟨none, some "[1]", some "999", some "3", some "name"⟩
        (some "tok123") none store0 7).1 = 403 ∧
    get_record [(1, 99)] "crm.lead" 1 ⟨none, none, none, none, none⟩
        (some "tok123") none store0 7
      = (.forbidden "model_not_allowed", store0) ∧
    statusOf (get_record [(1, 99)] "crm.lead" 1 ⟨none, none, none, none, none⟩
        (some "tok123") none store0 7).1 = 403 :=
  forbidden_model_403 arrayShapedParse () allMatch [10, 20, 30] [(1, 99)]
    "crm.lead" 1 ⟨none, some "[1]", some "999", some "3", some "name"⟩
    ⟨none, none, none, none, none⟩ (some "tok123") none store0 7 7 cfg0
    (by decide) (by decide)

/-- C3: for every gated list request on an allow-listed model whose limit
parameter parses to a value above the configuration's `max_records` (a
positive integer per the spec's data model), the effective limit is clamped
to `max_records`, at most `max_records` records are returned, and the
response's `total_count` is the number of records matching the domain,
ignoring limit and offset. -/
theorem list_limit_clamped_total_count {D Rec : Type}
    (jparse : String → Option D) (emptyD : D) (dm : D → Rec → Bool)
    (db : List Rec) (m : String) (kw : Kwargs) (h q : Option String)
    (store : List PowerBISettings) (now : Nat) (cfg : PowerBISettings)
    (dom : D) (ls : String) (L off : Int)
    (hvalid : _validate_request h q store = .valid cfg)
    (hallowed : m ∈ get_allowed_models_list store)
    (hdom : resolveDomain jparse emptyD (kw.domain.getD "[]") = some dom)
    (hlim : kw.limit = some ls) (hL : pyInt? ls = some L)
    (hgt : cfg.max_records < L) (hpos : 0 < cfg.max_records)
    (hoff : parseOffsetParam kw.offset = some off) (hoffpos : 0 ≤ off) :
    ∃ records : List Rec,
      get_model_data jparse emptyD dm db m kw h q store now
        = (.okList records records.length ((db.filter (dm dom)).length)
             cfg.max_records off,
           update_last_used store now) ∧
      records.length ≤ cfg.max_records.toNat := by
  have hls : ls ≠ "" := by
    intro h0
    rw [h0] at hL
    simp [pyInt?, pyStrip] at hL
  have hmin : min L cfg.max_records = cfg.max_records :=
    min_eq_right (le_of_lt hgt)
  have hlim0 : parseLimitParam cfg.max_records kw.limit
      = some cfg.max_records := by
    rw [hlim]
    simp [parseLimitParam, hls, hL, hmin]
  have hnz : ¬ cfg.max_records = 0 := by omega
  have hnl : ¬(cfg.max_records < 0 ∨ off < 0) := by omega
  have hsr : search_read dm db dom cfg.max_records off
      = .ok (((db.filter (dm dom)).drop off.toNat).take
              cfg.max_records.toNat) := by
    simp [search_read, hnl, hnz]
  refine ⟨((db.filter (dm dom)).drop off.toNat).take cfg.max_records.toNat,
          ?_, ?_⟩
  · simp [get_model_data, hvalid, hallowed, hdom, hlim0, hoff, hsr,
          search_count]
  · simp [List.length_take]

/-- C3 witness: with `max_records = 2`, three matching records and a
requested limit of 5, exactly the clamped response is produced. -/
theorem list_limit_clamped_total_count_witness :
    ∃ records : List Nat,
      get_model_data arrayShapedParse () allMatch [10, 20, 30] "res.partner"
          ⟨none, none, some "5", none, none⟩ (some "tok123") none store0 7
        = (.okList records records.length
             (([10, 20, 30].filter (allMatch ())).length) cfg0.max_records 0,
           update_last_used store0 7) ∧
      records.length ≤ cfg0.max_records.toNat :=
  list_limit_clamped_total_count arrayShapedParse () allMatch [10, 20, 30]
    "res.partner" ⟨none, none, some "5", none, none⟩ (some "tok123") none
    store0 7 cfg0 () "5" 5 0 (by decide) (by decide) (by decide) rfl
    (by decide) (by decide) (by decide) (by decide) (by decide)

/-- C4: a gated list request on an allow-listed model whose domain parameter
is not valid JSON is answered with HTTP 400 BadRequest — never 500 — and the
store is left unchanged. -/
theorem malformed_domain_400 {D Rec : Type} (jparse : String → Option D)
    (emptyD : D) (dm : D → Rec → Bool) (db : List Rec) (m : String)
    (kw : Kwargs) (h q : Option String) (store : List PowerBISettings)
    (now : Nat) (cfg : PowerBISettings) (ds : String)
    (hvalid : _validate_request h q store = .valid cfg)
    (hallowed : m ∈ get_allowed_models_list store)
    (hds : kw.domain = some ds) (hne : ds ≠ "") (hnb : ds ≠ "[]")
    (hparse : jparse ds = none) :
    get_model_data jparse emptyD dm db m kw h q store now
        = (.badRequest "invalid_domain_format", store) ∧
    statusOf (get_model_data jparse emptyD dm db m kw h q store now).1 = 400 ∧
    statusOf (get_model_data jparse emptyD dm db m kw h q store now).1 ≠ 500 := by
  have h1 : get_model_data jparse emptyD dm db m kw h q store now
      = (.badRequest "invalid_domain_format", store) := by
    simp [get_model_data, hvalid, hallowed, hds, resolveDomain, hne, hnb,
          hparse]
  exact ⟨h1, by rw [h1]; rfl, by rw [h1]; simp [statusOf]⟩

/-- C4 witness: the malformed domain string (a lone opening curly brace
followed by the word bad, the spec's example) is rejected with 400 for the
concrete store and record table. -/
theorem malformed_domain_400_witness :
    get_model_data arrayShapedParse () allMatch [10, 20, 30] "res.partner"
        ⟨none, some "\x7bbad", none, none, none⟩ (some "tok123") none store0 7
      = (.badRequest "invalid_domain_format", store0) ∧
    statusOf (get_model_data arrayShapedParse () allMatch [10, 20, 30]
        "res.partner" ⟨none, some "\x7bbad", none, none, none⟩
        (some "tok123") none store0 7).1 = 400 ∧
    statusOf (get_model_data arrayShapedParse () allMatch [10, 20, 30]
        "res.partner" ⟨none, some "\x7bbad", none, none, none⟩
        (some "tok123") none store0 7).1 ≠ 500 :=
  malformed_domain_400 arrayShapedParse () allMatch [10, 20, 30] "res.partner"
    ⟨none, some "\x7bbad", none, none, none⟩ (some "tok123") none store0 7
    cfg0 "\x7bbad" (by decide) (by decide) rfl (by decide) (by decide)
    (by decide)

/-- C5 counterexample: the claim says the broker fails with AuthBrokerError
when a 2xx response body is missing the `access_token` field, but
`_get_aad_token` returns `resp.json().get('access_token')`, so on a 200
response with no `access_token` it succeeds with `none` and raises nothing.
(The source itself anticipates this: `action_test_aad_connection` checks the
returned value for falsiness instead of relying on an exception.) -/
theorem aad_missing_access_token_counterexample :
    _get_aad_token cfg0
        (.ok { status := 200, jsonOk := true, access_token := none,
               token := none })
      = (.ok none, 1) ∧
    ∀ msg, (_get_aad_token cfg0
        (.ok { status := 200, jsonOk := true, access_token := none,
               token := none })).1
      ≠ .error (.authBrokerError msg) := by
  constructor
  · decide
  · intro msg hx
    rw [show _get_aad_token cfg0
        (.ok { status := 200, jsonOk := true, access_token := none,
               token := none }) = (.ok none, 1) from by decide] at hx
    exact absurd hx (by simp)

/-- C5 (amended): with complete credentials, the broker attempts exactly one
network call and fails with AuthBrokerError exactly on a network-level
failure, a 4xx/5xx response status, or an unparseable response body; on any
other response it returns the `access_token` field of the body, which is
`none` (with no error raised) when the field is absent. -/
theorem aad_broker_exact (cfg : PowerBISettings) (post : HttpOutcome)
    (hcreds : truthyO cfg.tenant_id ∧ truthyO cfg.client_id ∧
              truthyO cfg.client_secret) :
    ((_get_aad_token cfg post).2 = 1) ∧
    (∀ e, post = .error e →
       (_get_aad_token cfg post).1 = .error (.authBrokerError e)) ∧
    (∀ r, post = .ok r →
       ((∃ m, (_get_aad_token cfg post).1 = .error (.authBrokerError m)) ↔
         (raisesForStatus r ∨ r.jsonOk = false))) ∧
    (∀ r, post = .ok r → ¬ raisesForStatus r → r.jsonOk = true →
       (_get_aad_token cfg post).1 = .ok r.access_token) := by
  refine ⟨?_, ?_, ?_, ?_⟩
  · cases post with
    | error e => simp [_get_aad_token, hcreds]
    | ok r =>
      by_cases hs : raisesForStatus r
      · simp [_get_aad_token, hcreds, hs]
      · by_cases hj : r.jsonOk
        · simp [_get_aad_token, hcreds, hs, hj]
        · simp [_get_aad_token, hcreds, hs, hj]
  · rintro e rfl
    simp [_get_aad_token, hcreds]
  · rintro r rfl
    by_cases hs : raisesForStatus r
    · simp [_get_aad_token, hcreds, hs]
    · by_cases hj : r.jsonOk
      · simp [_get_aad_token, hcreds, hs, hj]
      · simp [_get_aad_token, hcreds, hs, hj]
  · rintro r rfl hs hj
    simp [_get_aad_token, hcreds, hs, hj]

/-- C5 witness: a network failure with complete credentials yields exactly
one attempted call and an AuthBrokerError carrying the exception text. -/
theorem aad_broker_exact_witness :
    (_get_aad_token cfg0 (.error "connection_refused")).2 = 1 ∧
    (_get_aad_token cfg0 (.error "connection_refused")).1
      = .error (.authBrokerError "connection_refused") :=
  ⟨(aad_broker_exact cfg0 (.error "connection_refused")
      (by decide)).1,
   (aad_broker_exact cfg0 (.error "connection_refused")
      (by decide)).2.1 "connection_refused" rfl⟩

/-- C6: whenever any of tenant id, client id or client secret is missing
from the configuration, both the raw AAD exchange and embed-token generation
fail with ConfigurationError having attempted zero outbound network calls. -/
theorem missing_creds_configuration_error (cfg : PowerBISettings)
    (aadPost : HttpOutcome) (genPost : EmbedPayload → HttpOutcome)
    (dataset_id access_level : Option String)
    (hmiss : ¬(truthyO cfg.tenant_id ∧ truthyO cfg.client_id ∧
               truthyO cfg.client_secret)) :
    _get_aad_token cfg aadPost = (.error .configurationError, 0) ∧
    generate_report_embed_token cfg aadPost genPost dataset_id access_level
      = (.error .configurationError, 0) := by
  have h1 : _get_aad_token cfg aadPost = (.error .configurationError, 0) := by
    simp [_get_aad_token, hmiss]
  refine ⟨h1, ?_⟩
  simp [generate_report_embed_token, h1]

/-- C6 witness: a configuration missing the tenant id fails with
ConfigurationError and makes no network call, even though both supplied
network outcomes would have succeeded. -/
theorem missing_creds_configuration_error_witness :
    _get_aad_token { cfg0 with tenant_id := none }
        (.ok { status := 200, jsonOk := true, access_token := some "aad",
               token := none })
      = (.error .configurationError, 0) ∧
    generate_report_embed_token { cfg0 with tenant_id := none }
        (.ok { status := 200, jsonOk := true, access_token := some "aad",
               token := none })
        (fun _ => .ok { status := 200, jsonOk := true, access_token := none,
                        token := some "embed" })
        none none
      = (.error .configurationError, 0) :=
  missing_creds_configuration_error { cfg0 with tenant_id := none }
    (.ok { status := 200, jsonOk := true, access_token := some "aad",
           token := none })
    (fun _ => .ok { status := 200, jsonOk := true, access_token := none,
                    token := some "embed" })
    none none (by decide)

theorem health_check_store (h q : Option String) (store : List PowerBISettings)
    (now : Nat) : (health_check h q store now).2 = store := by
  cases hv : _validate_request h q store <;> simp [health_check, hv]

theorem list_models_effect (h q : Option String) (store : List PowerBISettings)
    (now : Nat) :
    (statusOf (list_models h q store now).1 = 200 →
       (list_models h q store now).2 = update_last_used store now) ∧
    ((list_models h q store now).2 = store ∨
       (list_models h q store now).2 = update_last_used store now) := by
  cases hv : _validate_request h q store with
  | invalid msg =>
    refine ⟨?_, Or.inl ?_⟩
    · intro hst
      simp [list_models, hv, statusOf] at hst
    · simp [list_models, hv]
  | valid s =>
    refine ⟨?_, Or.inr ?_⟩ <;> simp [list_models, hv]

theorem get_model_data_effect {D Rec : Type} (jparse : String → Option D)
    (emptyD : D) (dm : D → Rec → Bool) (db : List Rec) (m : String)
    (kw : Kwargs) (h q : Option String) (store : List PowerBISettings)
    (now : Nat) :
    (statusOf (get_model_data jparse emptyD dm db m kw h q store now).1 = 200 →
       (get_model_data jparse emptyD dm db m kw h q store now).2
         = update_last_used store now) ∧
    ((get_model_data jparse emptyD dm db m kw h q store now).2 = store ∨
       (get_model_data jparse emptyD dm db m kw h q store now).2
         = update_last_used store now) := by
  cases hv : _validate_request h q store with
  | invalid msg =>
    refine ⟨?_, Or.inl ?_⟩
    · intro hst
      simp [get_model_data, hv, statusOf] at hst
    · simp [get_model_data, hv]
  | valid s =>
    simp only [get_model_data, hv]
    repeat' split
    all_goals refine ⟨?_, ?_⟩
    all_goals first
      | (intro _; rfl)
      | (left; rfl)
      | (right; rfl)
      | (intro hst; simp [statusOf] at hst)

theorem get_record_effect {Rec : Type} (db : List (Nat × Rec)) (m : String)
    (rid : Nat) (kw : Kwargs) (h q : Option String)
    (store : List PowerBISettings) (now : Nat) :
    (statusOf (get_record db m rid kw h q store now).1 = 200 →
       (get_record db m rid kw h q store now).2 = update_last_used store now) ∧
    ((get_record db m rid kw h q store now).2 = store ∨
       (get_record db m rid kw h q store now).2
         = update_last_used store now) := by
  cases hv : _validate_request h q store with
  | invalid msg =>
    refine ⟨?_, Or.inl ?_⟩
    · intro hst
      simp [get_record, hv, statusOf] at hst
    · simp [get_record, hv]
  | valid s =>
    simp only [get_record, hv]
    repeat' split
    all_goals refine ⟨?_, ?_⟩
    all_goals first
      | (intro _; rfl)
      | (left; rfl)
      | (right; rfl)
      | (intro hst; simp [statusOf] at hst)

theorem update_last_used_frame (store : List PowerBISettings) (now : Nat) :
    (update_last_used store now).map (fun c => { c with last_used := none })
      = store.map (fun c => { c with last_used := none }) := by
  induction store with
  | nil => rfl
  | cons c rest ih =>
    by_cases hc : c.is_active
    · simp [update_last_used, hc]
    · simp [update_last_used, hc, ih]

/-- C9 counterexample: the claim requires every successful gated read,
including /health, to update the active configuration's last-used
timestamp; but a successful health check returns the store unchanged — the
active record's `last_used` stays `none` — although a last-used update at
that instant would have changed the store. -/
theorem health_no_last_used_counterexample :
    (health_check (some "tok123") none store0 5).1 = .okHealth ∧
    statusOf (health_check (some "tok123") none store0 5).1 = 200 ∧
    (health_check (some "tok123") none store0 5).2 = store0 ∧
    (get_active_settings
        ((health_check (some "tok123") none store0 5).2)).map
        (·.last_used) = some none ∧
    update_last_used store0 5 ≠ store0 :=
  ⟨by decide, by decide, by decide, by decide, by decide⟩

/-- C9 (amended): a successful (HTTP 200) gated read through /models, the
model-list endpoint or the single-record endpoint updates the active
configuration's last-used timestamp as its only store effect; every gated
read either leaves the store unchanged or performs exactly that last-used
update (which touches no configuration field other than `last_used`); the
/health endpoint, however, never writes the store, even on success. -/
theorem gated_read_last_used_frame :
    (∀ (h q : Option String) (store : List PowerBISettings) (now : Nat),
       (health_check h q store now).2 = store) ∧
    (∀ (h q : Option String) (store : List PowerBISettings) (now : Nat),
       statusOf (list_models h q store now).1 = 200 →
         (list_models h q store now).2 = update_last_used store now) ∧
    (∀ (D Rec : Type) (jparse : String → Option D) (emptyD : D)
       (dm : D → Rec → Bool) (db : List Rec) (m : String) (kw : Kwargs)
       (h q : Option String) (store : List PowerBISettings) (now : Nat),
       statusOf (get_model_data jparse emptyD dm db m kw h q store now).1
           = 200 →
         (get_model_data jparse emptyD dm db m kw h q store now).2
           = update_last_used store now) ∧
    (∀ (Rec : Type) (db : List (Nat × Rec)) (m : String) (rid : Nat)
       (kw : Kwargs) (h q : Option String) (store : List PowerBISettings)
       (now : Nat),
       statusOf (get_record db m rid kw h q store now).1 = 200 →
         (get_record db m rid kw h q store now).2
           = update_last_used store now) ∧
    (∀ (D Rec : Type) (jparse : String → Option D) (emptyD : D)
       (dm : D → Rec → Bool) (db : List Rec) (m : String) (kw : Kwargs)
       (h q : Option String) (store : List PowerBISettings) (now : Nat),
       (get_model_data jparse emptyD dm db m kw h q store now).2 = store ∨
       (get_model_data jparse emptyD dm db m kw h q store now).2
         = update_last_used store now) ∧
    (∀ (Rec : Type) (db : List (Nat × Rec)) (m : String) (rid : Nat)
       (kw : Kwargs) (h q : Option String) (store : List PowerBISettings)
       (now : Nat),
       (get_record db m rid kw h q store now).2 = store ∨
       (get_record db m rid kw h q store now).2
         = update_last_used store now) ∧
    (∀ (store : List PowerBISettings) (now : Nat),
       (update_last_used store now).map (fun c => { c with last_used := none })
         = store.map (fun c => { c with last_used := none })) :=
  ⟨health_check_store,
   fun h q store now => (list_models_effect h q store now).1,
   fun D Rec jparse emptyD dm db m kw h q store now =>
     (get_model_data_effect jparse emptyD dm db m kw h q store now).1,
   fun Rec db m rid kw h q store now =>
     (get_record_effect db m rid kw h q store now).1,
   fun D Rec jparse emptyD dm db m kw h q store now =>
     (get_model_data_effect jparse emptyD dm db m kw h q store now).2,
   fun Rec db m rid kw h q store now =>
     (get_record_effect db m rid kw h q store now).2,
   update_last_used_frame⟩

/-- C9 witness: a successful /models read on the concrete store performs
exactly the last-used update. -/
theorem gated_read_last_used_frame_witness :
    (list_models (some "tok123") none store0 7).2 = update_last_used store0 7 :=
  gated_read_last_used_frame.2.1 (some "tok123") none store0 7 (by decide)

theorem updateWorkspaceFirst_none_iff (w : WorkspaceData)
    (l : List WorkspaceRec) :
    updateWorkspaceFirst w l = none ↔ w.id ∉ wsKeys l := by
  induction l with
  | nil => simp [updateWorkspaceFirst, wsKeys]
  | cons r rest ih =>
    by_cases hr : r.workspace_id = w.id
    · simp [updateWorkspaceFirst, hr, wsKeys]
    · simp only [updateWorkspaceFirst, hr, if_false]
      simp only [wsKeys, List.map_cons, List.mem_cons, not_or] at ih ⊢
      constructor
      · intro hmap
        have : updateWorkspaceFirst w rest = none := by
          cases hu : updateWorkspaceFirst w rest with
          | none => rfl
          | some p => rw [hu] at hmap; simp at hmap
        exact ⟨fun he => hr he.symm, ih.1 this⟩
      · intro ⟨_, hrest⟩
        rw [ih.2 hrest]
        rfl

theorem updateWorkspaceFirst_some (w : WorkspaceData) :
    ∀ (l l2 : List WorkspaceRec) (i : Nat),
      updateWorkspaceFirst w l = some (l2, i) →
        wsKeys l2 = wsKeys l ∧ l2.length = l.length
  | [], l2, i, h => by simp [updateWorkspaceFirst] at h
  | r :: rest, l2, i, h => by
    by_cases hr : r.workspace_id = w.id
    · simp only [updateWorkspaceFirst, hr, if_true, Option.some.injEq,
                 Prod.mk.injEq] at h
      obtain ⟨h1, _⟩ := h
      subst h1
      simp [wsKeys, hr]
    · simp only [updateWorkspaceFirst, hr, if_false,
                 Option.map_eq_some'] at h
      obtain ⟨⟨l3, j⟩, hrec, heq⟩ := h
      simp only [Prod.mk.injEq] at heq
      obtain ⟨h1, _⟩ := heq
      subst h1
      have hsub := updateWorkspaceFirst_some w rest l3 j hrec
      have h1 := hsub.1
      have h2 := hsub.2
      simp only [wsKeys] at h1
      simp [wsKeys, h1, h2]

theorem updateReportFirst_none_iff (wsExtId : String) (refId : Nat)
    (rd : ReportData) (l : List ReportRec) :
    updateReportFirst wsExtId refId rd l = none ↔
      (wsExtId, rd.id) ∉ repKeys l := by
  induction l with
  | nil => simp [updateReportFirst, repKeys]
  | cons r rest ih =>
    by_cases hr : r.workspace_id = wsExtId ∧ r.report_id = rd.id
    · simp [updateReportFirst, hr, repKeys, Prod.ext_iff, hr.1, hr.2]
    · simp only [updateReportFirst, hr, if_false]
      simp only [repKeys, List.map_cons, List.mem_cons, not_or] at ih ⊢
      constructor
      · intro hmap
        have : updateReportFirst wsExtId refId rd rest = none := by
          cases hu : updateReportFirst wsExtId refId rd rest with
          | none => rfl
          | some p => rw [hu] at hmap; simp at hmap
        refine ⟨?_, ih.1 this⟩
        intro he
        rw [Prod.ext_iff] at he
        exact hr ⟨he.1.symm, he.2.symm⟩
      · intro ⟨_, hrest⟩
        rw [ih.2 hrest]
        rfl

theorem updateReportFirst_some (wsExtId : String) (refId : Nat)
    (rd : ReportData) :
    ∀ (l l2 : List ReportRec),
      updateReportFirst wsExtId refId rd l = some l2 →
        repKeys l2 = repKeys l ∧ l2.length = l.length
  | [], l2, h => by simp [updateReportFirst] at h
  | r :: rest, l2, h => by
    by_cases hr : r.workspace_id = wsExtId ∧ r.report_id = rd.id
    · rw [updateReportFirst, if_pos hr] at h
      injection h with h1
      subst h1
      simp [repKeys, hr.1, hr.2]
    · rw [updateReportFirst, if_neg hr] at h
      rw [Option.map_eq_some'] at h
      obtain ⟨l3, hrec, heq⟩ := h
      subst heq
      have hsub := updateReportFirst_some wsExtId refId rd rest l3 hrec
      have h1 := hsub.1
      have h2 := hsub.2
      simp only [repKeys] at h1
      simp [repKeys, h1, h2]

theorem updateReportFirst_mem {wsExtId : String} {refId : Nat}
    {rd : ReportData} {l : List ReportRec} {l2 : List ReportRec}
    (h : updateReportFirst wsExtId refId rd l = some l2) :
    (wsExtId, rd.id) ∈ repKeys l := by
  by_contra hmem
  rw [← updateReportFirst_none_iff wsExtId refId rd l] at hmem
  rw [hmem] at h
  cases h

theorem repKeys_append (l1 l2 : List ReportRec) :
    repKeys (l1 ++ l2) = repKeys l1 ++ repKeys l2 := by
  simp [repKeys]

theorem repKeys_newReportRec (wsExtId wsName : String) (refId : Nat)
    (rd : ReportData) :
    repKeys [newReportRec wsExtId wsName refId rd] = [(wsExtId, rd.id)] := rfl

theorem syncReportsLoop_mono_cover (wsExtId wsName : String) (refId : Nat) :
    ∀ (rds : List ReportData) (reps : List ReportRec),
      (∀ k, k ∈ repKeys reps →
         k ∈ repKeys (syncReportsLoop wsExtId wsName refId reps rds).1) ∧
      (∀ rd ∈ rds, (wsExtId, rd.id)
         ∈ repKeys (syncReportsLoop wsExtId wsName refId reps rds).1)
  | [], reps => by simp [syncReportsLoop]
  | rd :: rest, reps => by
    have ih := syncReportsLoop_mono_cover wsExtId wsName refId rest
    cases hu : updateReportFirst wsExtId refId rd reps with
    | some reps1 =>
      have hkeys := (updateReportFirst_some wsExtId refId rd reps reps1 hu).1
      have hres : (syncReportsLoop wsExtId wsName refId reps (rd :: rest)).1
          = (syncReportsLoop wsExtId wsName refId reps1 rest).1 := by
        simp only [syncReportsLoop, hu]
      rw [hres]
      refine ⟨?_, ?_⟩
      · intro k hk
        exact (ih reps1).1 k (by rw [hkeys]; exact hk)
      · intro rd2 hrd2
        rcases List.mem_cons.mp hrd2 with h1 | h1
        · subst h1
          exact (ih reps1).1 _ (by rw [hkeys]; exact updateReportFirst_mem hu)
        · exact (ih reps1).2 rd2 h1
    | none =>
      have hres : (syncReportsLoop wsExtId wsName refId reps (rd :: rest)).1
          = (syncReportsLoop wsExtId wsName refId
              (reps ++ [newReportRec wsExtId wsName refId rd]) rest).1 := by
        simp only [syncReportsLoop, hu]
      rw [hres]
      have hkeys1 : repKeys (reps ++ [newReportRec wsExtId wsName refId rd])
          = repKeys reps ++ [(wsExtId, rd.id)] := by
        rw [repKeys_append, repKeys_newReportRec]
      refine ⟨?_, ?_⟩
      · intro k hk
        exact (ih _).1 k (by rw [hkeys1]; exact List.mem_append_left _ hk)
      · intro rd2 hrd2
        rcases List.mem_cons.mp hrd2 with h1 | h1
        · subst h1
          exact (ih _).1 _ (by rw [hkeys1]; simp)
        · exact (ih _).2 rd2 h1

theorem syncReportsLoop_stable (wsExtId wsName : String) (refId : Nat) :
    ∀ (rds : List ReportData) (reps : List ReportRec),
      (∀ rd ∈ rds, (wsExtId, rd.id) ∈ repKeys reps) →
        repKeys (syncReportsLoop wsExtId wsName refId reps rds).1
            = repKeys reps ∧
        (syncReportsLoop wsExtId wsName refId reps rds).1.length
            = reps.length ∧
        (syncReportsLoop wsExtId wsName refId reps rds).2.1 = 0
  | [], reps, _ => by simp [syncReportsLoop]
  | rd :: rest, reps, hmem => by
    have hin : (wsExtId, rd.id) ∈ repKeys reps := hmem rd (by simp)
    cases hu : updateReportFirst wsExtId refId rd reps with
    | none =>
      rw [updateReportFirst_none_iff] at hu
      exact absurd hin hu
    | some reps1 =>
      have hsub := updateReportFirst_some wsExtId refId rd reps reps1 hu
      have hmem1 : ∀ rd2 ∈ rest, (wsExtId, rd2.id) ∈ repKeys reps1 := by
        intro rd2 h2
        rw [hsub.1]
        exact hmem rd2 (by simp [h2])
      have ih := syncReportsLoop_stable wsExtId wsName refId rest reps1 hmem1
      simp only [syncReportsLoop, hu]
      cases hloop : syncReportsLoop wsExtId wsName refId reps1 rest with
      | mk reps2 cu =>
        cases cu with
        | mk c u =>
          rw [hloop] at ih
          simp only at ih
          exact ⟨by rw [ih.1, hsub.1], by rw [ih.2.1, hsub.2], ih.2.2⟩

theorem syncReportsLoop_nodup (wsExtId wsName : String) (refId : Nat) :
    ∀ (rds : List ReportData) (reps : List ReportRec),
      (repKeys reps).Nodup →
        (repKeys (syncReportsLoop wsExtId wsName refId reps rds).1).Nodup
  | [], reps, hnd => by simpa [syncReportsLoop] using hnd
  | rd :: rest, reps, hnd => by
    cases hu : updateReportFirst wsExtId refId rd reps with
    | some reps1 =>
      have hkeys := (updateReportFirst_some wsExtId refId rd reps reps1 hu).1
      have hres : (syncReportsLoop wsExtId wsName refId reps (rd :: rest)).1
          = (syncReportsLoop wsExtId wsName refId reps1 rest).1 := by
        simp only [syncReportsLoop, hu]
      rw [hres]
      exact syncReportsLoop_nodup wsExtId wsName refId rest reps1
        (by rw [hkeys]; exact hnd)
    | none =>
      have hnotin : (wsExtId, rd.id) ∉ repKeys reps :=
        (updateReportFirst_none_iff wsExtId refId rd reps).mp hu
      have hres : (syncReportsLoop wsExtId wsName refId reps (rd :: rest)).1
          = (syncReportsLoop wsExtId wsName refId
              (reps ++ [newReportRec wsExtId wsName refId rd]) rest).1 := by
        simp only [syncReportsLoop, hu]
      rw [hres]
      refine syncReportsLoop_nodup wsExtId wsName refId rest _ ?_
      rw [repKeys_append, repKeys_newReportRec]
      simp [List.nodup_append, hnd, hnotin]

theorem wsKeys_append (l1 l2 : List WorkspaceRec) :
    wsKeys (l1 ++ l2) = wsKeys l1 ++ wsKeys l2 := by
  simp [wsKeys]

theorem syncWorkspace_ws (st : SyncState) (w : WorkspaceData) :
    (∀ k, k ∈ wsKeys st.workspaces →
       k ∈ wsKeys (syncWorkspace st w).1.workspaces) ∧
    w.id ∈ wsKeys (syncWorkspace st w).1.workspaces ∧
    (w.id ∈ wsKeys st.workspaces →
       wsKeys (syncWorkspace st w).1.workspaces = wsKeys st.workspaces ∧
       (syncWorkspace st w).1.workspaces.length = st.workspaces.length) ∧
    ((wsKeys st.workspaces).Nodup →
       (wsKeys (syncWorkspace st w).1.workspaces).Nodup) := by
  have hws : (syncWorkspace st w).1.workspaces
      = (match updateWorkspaceFirst w st.workspaces with
         | some (l, _) => l
         | none => st.workspaces ++
             [{ id := st.nextId, name := w.name.getD "Unknown",
                workspace_id := w.id,
                is_on_dedicated_capacity := w.isOnDedicatedCapacity,
                state := "active" }]) := by
    cases hu : updateWorkspaceFirst w st.workspaces with
    | some p =>
      cases p with
      | mk l i =>
        cases hf : w.reportsFetch with
        | error e => simp [syncWorkspace, hu, hf]
        | ok rds => simp [syncWorkspace, hu, hf]
    | none =>
      cases hf : w.reportsFetch with
      | error e => simp [syncWorkspace, hu, hf]
      | ok rds => simp [syncWorkspace, hu, hf]
  rw [hws]
  cases hu : updateWorkspaceFirst w st.workspaces with
  | some p =>
    cases p with
    | mk l i =>
      have hsub := updateWorkspaceFirst_some w st.workspaces l i hu
      have hmem : w.id ∈ wsKeys st.workspaces := by
        by_contra hx
        rw [← updateWorkspaceFirst_none_iff] at hx
        rw [hx] at hu
        cases hu
      refine ⟨?_, ?_, ?_, ?_⟩
      · intro k hk
        rw [hsub.1]
        exact hk
      · rw [hsub.1]
        exact hmem
      · intro _
        exact hsub
      · intro hnd
        rw [hsub.1]
        exact hnd
  | none =>
    have hnotin : w.id ∉ wsKeys st.workspaces :=
      (updateWorkspaceFirst_none_iff w st.workspaces).mp hu
    rw [wsKeys_append]
    refine ⟨?_, ?_, ?_, ?_⟩
    · intro k hk
      exact List.mem_append_left _ hk
    · simp [wsKeys]
    · intro hmem
      exact absurd hmem hnotin
    · intro hnd
      have hni2 : ∀ x ∈ st.workspaces, ¬ x.workspace_id = w.id := by
        intro x hx he
        exact hnotin (by rw [← he]; exact List.mem_map_of_mem _ hx)
      have hnd2 : (List.map (fun x => x.workspace_id) st.workspaces).Nodup :=
        hnd
      simp [List.nodup_append, wsKeys, hnd2]
      exact hni2

theorem syncWorkspace_reports (st : SyncState) (w : WorkspaceData) :
    (∀ k, k ∈ repKeys st.reports →
       k ∈ repKeys (syncWorkspace st w).1.reports) ∧
    (∀ rds, w.reportsFetch = .ok rds → ∀ rd ∈ rds,
       (w.id, rd.id) ∈ repKeys (syncWorkspace st w).1.reports) ∧
    ((∀ rds, w.reportsFetch = .ok rds → ∀ rd ∈ rds,
        (w.id, rd.id) ∈ repKeys st.reports) →
       repKeys (syncWorkspace st w).1.reports = repKeys st.reports ∧
       (syncWorkspace st w).1.reports.length = st.reports.length ∧
       (syncWorkspace st w).2.1 = 0) ∧
    ((repKeys st.reports).Nodup →
       (repKeys (syncWorkspace st w).1.reports).Nodup) := by
  cases hu : updateWorkspaceFirst w st.workspaces with
  | some p =>
    cases p with
    | mk l i =>
      cases hf : w.reportsFetch with
      | error e =>
        refine ⟨?_, ?_, ?_, ?_⟩ <;>
          simp [syncWorkspace, hu, hf]
      | ok rds =>
        simp only [syncWorkspace, hu, hf]
        cases hloop : syncReportsLoop w.id (w.name.getD "Unknown") i
            st.reports rds with
        | mk a bc =>
          cases bc with
          | mk b c =>
            have hm := syncReportsLoop_mono_cover w.id
              (w.name.getD "Unknown") i rds st.reports
            have hs := syncReportsLoop_stable w.id
              (w.name.getD "Unknown") i rds st.reports
            have hn := syncReportsLoop_nodup w.id
              (w.name.getD "Unknown") i rds st.reports
            rw [hloop] at hm hs hn
            simp only at hm hs hn
            refine ⟨fun k hk => hm.1 k hk, ?_, ?_, hn⟩
            · intro rds2 heq rd hrd
              injection heq with h2
              subst h2
              exact hm.2 rd hrd
            · intro hcov
              exact hs (hcov rds rfl)
  | none =>
    cases hf : w.reportsFetch with
    | error e =>
      refine ⟨?_, ?_, ?_, ?_⟩ <;>
        simp [syncWorkspace, hu, hf]
    | ok rds =>
      simp only [syncWorkspace, hu, hf]
      cases hloop : syncReportsLoop w.id (w.name.getD "Unknown") st.nextId
          st.reports rds with
      | mk a bc =>
        cases bc with
        | mk b c =>
          have hm := syncReportsLoop_mono_cover w.id
            (w.name.getD "Unknown") st.nextId rds st.reports
          have hs := syncReportsLoop_stable w.id
            (w.name.getD "Unknown") st.nextId rds st.reports
          have hn := syncReportsLoop_nodup w.id
            (w.name.getD "Unknown") st.nextId rds st.reports
          rw [hloop] at hm hs hn
          simp only at hm hs hn
          refine ⟨fun k hk => hm.1 k hk, ?_, ?_, hn⟩
          · intro rds2 heq rd hrd
            injection heq with h2
            subst h2
            exact hm.2 rd hrd
          · intro hcov
            exact hs (hcov rds rfl)

theorem syncAll_cons (st : SyncState) (w : WorkspaceData)
    (rest : List WorkspaceData) :
    syncAll st (w :: rest)
      = ((syncAll (syncWorkspace st w).1 rest).1,
         (syncWorkspace st w).2.1 + (syncAll (syncWorkspace st w).1 rest).2.1,
         (syncWorkspace st w).2.2
           + (syncAll (syncWorkspace st w).1 rest).2.2) := by
  rcases hw : syncWorkspace st w with ⟨st1, c1, u1⟩
  rcases hall : syncAll st1 rest with ⟨st2, c2, u2⟩
  simp [syncAll, hw, hall]

theorem syncAll_mono : ∀ (up : List WorkspaceData) (st : SyncState),
    (∀ k, k ∈ wsKeys st.workspaces →
       k ∈ wsKeys (syncAll st up).1.workspaces) ∧
    (∀ k, k ∈ repKeys st.reports → k ∈ repKeys (syncAll st up).1.reports)
  | [], st => by simp [syncAll]
  | w :: rest, st => by
    rw [syncAll_cons]
    have h1 := syncWorkspace_ws st w
    have h2 := syncWorkspace_reports st w
    have ih := syncAll_mono rest (syncWorkspace st w).1
    exact ⟨fun k hk => ih.1 k (h1.1 k hk), fun k hk => ih.2 k (h2.1 k hk)⟩

theorem syncAll_cover : ∀ (up : List WorkspaceData) (st : SyncState),
    ∀ w ∈ up,
      w.id ∈ wsKeys (syncAll st up).1.workspaces ∧
      (∀ rds, w.reportsFetch = .ok rds → ∀ rd ∈ rds,
         (w.id, rd.id) ∈ repKeys (syncAll st up).1.reports)
  | [], _, w, hw => by simp at hw
  | w0 :: rest, st, w, hw => by
    rw [syncAll_cons]
    rcases List.mem_cons.mp hw with h1 | h1
    · subst h1
      refine ⟨?_, ?_⟩
      · exact (syncAll_mono rest _).1 _ (syncWorkspace_ws st w).2.1
      · intro rds hf rd hrd
        exact (syncAll_mono rest _).2 _
          ((syncWorkspace_reports st w).2.1 rds hf rd hrd)
    · exact syncAll_cover rest _ w h1

theorem syncAll_stable : ∀ (up : List WorkspaceData) (st : SyncState),
    (∀ w ∈ up,
       w.id ∈ wsKeys st.workspaces ∧
       (∀ rds, w.reportsFetch = .ok rds → ∀ rd ∈ rds,
          (w.id, rd.id) ∈ repKeys st.reports)) →
      wsKeys (syncAll st up).1.workspaces = wsKeys st.workspaces ∧
      (syncAll st up).1.workspaces.length = st.workspaces.length ∧
      repKeys (syncAll st up).1.reports = repKeys st.reports ∧
      (syncAll st up).1.reports.length = st.reports.length ∧
      (syncAll st up).2.1 = 0
  | [], st, _ => by simp [syncAll]
  | w :: rest, st, hcov => by
    rw [syncAll_cons]
    have hws := (syncWorkspace_ws st w).2.2.1 (hcov w (by simp)).1
    have hrep := (syncWorkspace_reports st w).2.2.1 (hcov w (by simp)).2
    have hcov1 : ∀ w2 ∈ rest,
        w2.id ∈ wsKeys (syncWorkspace st w).1.workspaces ∧
        (∀ rds, w2.reportsFetch = .ok rds → ∀ rd ∈ rds,
           (w2.id, rd.id) ∈ repKeys (syncWorkspace st w).1.reports) := by
      intro w2 h2
      have hc := hcov w2 (by simp [h2])
      refine ⟨by rw [hws.1]; exact hc.1, ?_⟩
      intro rds hf rd hrd
      rw [hrep.1]
      exact hc.2 rds hf rd hrd
    have ih := syncAll_stable rest (syncWorkspace st w).1 hcov1
    refine ⟨?_, ?_, ?_, ?_, ?_⟩
    · rw [show wsKeys ((syncAll (syncWorkspace st w).1 rest).1,
             (syncWorkspace st w).2.1
               + (syncAll (syncWorkspace st w).1 rest).2.1,
             (syncWorkspace st w).2.2
               + (syncAll (syncWorkspace st w).1 rest).2.2).1.workspaces
           = wsKeys (syncAll (syncWorkspace st w).1 rest).1.workspaces
           from rfl, ih.1, hws.1]
    · rw [show ((syncAll (syncWorkspace st w).1 rest).1,
             (syncWorkspace st w).2.1
               + (syncAll (syncWorkspace st w).1 rest).2.1,
             (syncWorkspace st w).2.2
               + (syncAll (syncWorkspace st w).1 rest).2.2).1.workspaces.length
           = (syncAll (syncWorkspace st w).1 rest).1.workspaces.length
           from rfl, ih.2.1, hws.2]
    · rw [show repKeys ((syncAll (syncWorkspace st w).1 rest).1,
             (syncWorkspace st w).2.1
               + (syncAll (syncWorkspace st w).1 rest).2.1,
             (syncWorkspace st w).2.2
               + (syncAll (syncWorkspace st w).1 rest).2.2).1.reports
           = repKeys (syncAll (syncWorkspace st w).1 rest).1.reports
           from rfl, ih.2.2.1, hrep.1]
    · rw [show ((syncAll (syncWorkspace st w).1 rest).1,
             (syncWorkspace st w).2.1
               + (syncAll (syncWorkspace st w).1 rest).2.1,
             (syncWorkspace st w).2.2
               + (syncAll (syncWorkspace st w).1 rest).2.2).1.reports.length
           = (syncAll (syncWorkspace st w).1 rest).1.reports.length
           from rfl, ih.2.2.2.1, hrep.2.1]
    · have hc0 := hrep.2.2
      have hc1 := ih.2.2.2.2
      simp only [Prod.snd, Prod.fst]
      omega

theorem syncAll_nodup : ∀ (up : List WorkspaceData) (st : SyncState),
    ((wsKeys st.workspaces).Nodup →
       (wsKeys (syncAll st up).1.workspaces).Nodup) ∧
    ((repKeys st.reports).Nodup →
       (repKeys (syncAll st up).1.reports).Nodup)
  | [], st => by simp [syncAll]
  | w :: rest, st => by
    rw [syncAll_cons]
    have h1 := (syncWorkspace_ws st w).2.2.2
    have h2 := (syncWorkspace_reports st w).2.2.2
    have ih := syncAll_nodup rest (syncWorkspace st w).1
    exact ⟨fun hnd => ih.1 (h1 hnd), fun hnd => ih.2 (h2 hnd)⟩

theorem action_sync_ok_cons (st : SyncState) (w : WorkspaceData)
    (rest : List WorkspaceData) :
    action_sync_workspaces (.ok (w :: rest)) st
      = (SyncResult.success (syncAll st (w :: rest)).2.1
           (syncAll st (w :: rest)).2.2,
         (syncAll st (w :: rest)).1) := by
  rcases hall : syncAll st (w :: rest) with ⟨st1, c1, u1⟩
  simp [action_sync_workspaces, hall]

/-- A concrete upstream report for the sync witnesses. -/
def rdA : ReportData :=
  { id := "r1", name := some "Sales", embedUrl := some "u1",
    datasetId := some "d1" }

/-- A concrete upstream workspace whose report fetch succeeds. -/
def wdA : WorkspaceData :=
  { id := "w1", name := some "Main", isOnDedicatedCapacity := false,
    reportsFetch := .ok [rdA] }

/-- A concrete upstream workspace whose report fetch throws. -/
def wdFail : WorkspaceData :=
  { id := "w2", name := some "Broken", isOnDedicatedCapacity := true,
    reportsFetch := .error "boom" }

/-- An empty local mirror database. -/
def syncSt0 : SyncState := { workspaces := [], reports := [], nextId := 1 }

/-- C7: running the sync engine twice against an unchanged upstream with no
per-workspace report-fetch failures creates zero new Workspace and Report
records on the second run: both table sizes are unchanged, the second run's
reported created count is zero, and — since each Report is matched for
upsert by its (workspace external id, report external id) pair and each
Workspace by its external id — distinctness of those keys is preserved, so
records are never duplicated. -/
theorem sync_twice_idempotent (up : List WorkspaceData) (st0 : SyncState)
    (hfetch : ∀ w ∈ up, ∃ rs, w.reportsFetch = Except.ok rs) :
    ((action_sync_workspaces (.ok up)
        (action_sync_workspaces (.ok up) st0).2).2).workspaces.length
      = ((action_sync_workspaces (.ok up) st0).2).workspaces.length ∧
    ((action_sync_workspaces (.ok up)
        (action_sync_workspaces (.ok up) st0).2).2).reports.length
      = ((action_sync_workspaces (.ok up) st0).2).reports.length ∧
    (∀ c u, (action_sync_workspaces (.ok up)
        (action_sync_workspaces (.ok up) st0).2).1
          = .success c u → c = 0) ∧
    ((wsKeys st0.workspaces).Nodup →
       (wsKeys ((action_sync_workspaces (.ok up)
          (action_sync_workspaces (.ok up) st0).2).2).workspaces).Nodup) ∧
    ((repKeys st0.reports).Nodup →
       (repKeys ((action_sync_workspaces (.ok up)
          (action_sync_workspaces (.ok up) st0).2).2).reports).Nodup) := by
  have _ := hfetch
  cases up with
  | nil =>
    refine ⟨rfl, rfl, ?_, fun hx => hx, fun hx => hx⟩
    intro c u hcu
    simp [action_sync_workspaces] at hcu
  | cons w rest =>
    rw [action_sync_ok_cons st0 w rest]
    rw [action_sync_ok_cons]
    have hcov := syncAll_cover (w :: rest) (syncAll st0 (w :: rest)).1
    have hstab := syncAll_stable (w :: rest) (syncAll st0 (w :: rest)).1
      (fun w2 h2 =>
        ⟨(syncAll_cover (w :: rest) st0 w2 h2).1,
         (syncAll_cover (w :: rest) st0 w2 h2).2⟩)
    refine ⟨hstab.2.1, hstab.2.2.2.1, ?_, ?_, ?_⟩
    · intro c u hcu
      injection hcu with h1 h2
      rw [← h1]
      exact hstab.2.2.2.2
    · intro hnd
      exact (syncAll_nodup (w :: rest) _).1
        ((syncAll_nodup (w :: rest) st0).1 hnd)
    · intro hnd
      exact (syncAll_nodup (w :: rest) _).2
        ((syncAll_nodup (w :: rest) st0).2 hnd)

/-- C7 witness: a one-workspace one-report upstream, synced twice from an
empty database, reports zero creates on the second pass and leaves both
table sizes unchanged. -/
theorem sync_twice_idempotent_witness :
    ((action_sync_workspaces (.ok [wdA])
        (action_sync_workspaces (.ok [wdA]) syncSt0).2).2).workspaces.length
      = ((action_sync_workspaces (.ok [wdA]) syncSt0).2).workspaces.length ∧
    ((action_sync_workspaces (.ok [wdA])
        (action_sync_workspaces (.ok [wdA]) syncSt0).2).2).reports.length
      = ((action_sync_workspaces (.ok [wdA]) syncSt0).2).reports.length ∧
    (∀ c u, (action_sync_workspaces (.ok [wdA])
        (action_sync_workspaces (.ok [wdA]) syncSt0).2).1
          = .success c u → c = 0) ∧
    ((wsKeys syncSt0.workspaces).Nodup →
       (wsKeys ((action_sync_workspaces (.ok [wdA])
          (action_sync_workspaces (.ok [wdA]) syncSt0).2).2).workspaces).Nodup) ∧
    ((repKeys syncSt0.reports).Nodup →
       (repKeys ((action_sync_workspaces (.ok [wdA])
          (action_sync_workspaces (.ok [wdA]) syncSt0).2).2).reports).Nodup) :=
  sync_twice_idempotent [wdA] syncSt0
    (by
      intro w hw
      rw [List.mem_singleton] at hw
      subst hw
      exact ⟨[rdA], rfl⟩)

theorem updateWorkspaceFirst_congr (w w' : WorkspaceData)
    (hid : w.id = w'.id) (hname : w.name = w'.name)
    (hcap : w.isOnDedicatedCapacity = w'.isOnDedicatedCapacity) :
    ∀ l, updateWorkspaceFirst w l = updateWorkspaceFirst w' l
  | [] => rfl
  | r :: rest => by
    simp only [updateWorkspaceFirst, hid, hname, hcap,
               updateWorkspaceFirst_congr w w' hid hname hcap rest]

theorem syncWorkspace_blank_head (st : SyncState) (w : WorkspaceData) :
    syncWorkspace st (match w.reportsFetch with
      | .error _ => { w with reportsFetch := Except.ok [] }
      | .ok _ => w) = syncWorkspace st w := by
  cases hf : w.reportsFetch with
  | ok rds => rfl
  | error e =>
    show syncWorkspace st { w with reportsFetch := Except.ok [] }
        = syncWorkspace st w
    unfold syncWorkspace
    rw [show ({ w with reportsFetch := Except.ok [] } : WorkspaceData).name
        = w.name from rfl]
    rw [updateWorkspaceFirst_congr { w with reportsFetch := Except.ok [] } w
        rfl rfl rfl]
    cases hu : updateWorkspaceFirst w st.workspaces with
    | some p =>
      cases p with
      | mk l i => simp [hf, syncReportsLoop]
    | none => simp [hf, syncReportsLoop]

theorem syncAll_blankFailed : ∀ (up : List WorkspaceData) (st : SyncState),
    syncAll st (blankFailed up) = syncAll st up
  | [], _ => rfl
  | w :: rest, st => by
    have hbf : blankFailed (w :: rest)
        = (match w.reportsFetch with
           | .error _ => { w with reportsFetch := Except.ok [] }
           | .ok _ => w) :: blankFailed rest := rfl
    rw [hbf, syncAll_cons, syncAll_cons, syncWorkspace_blank_head,
        syncAll_blankFailed rest]

/-- C8: a sync pass over an upstream in which some per-workspace report
fetches throw is exactly the pass over the same upstream with those report
lists替 replaced by empty lists: the failed workspace's report loop is
skipped (its workspace record is still upserted), every other workspace is
synced identically, the created/updated counts aggregate exactly the
workspaces that succeeded, and the pass still reports overall success
whenever the workspace list is nonempty. -/
theorem sync_partial_failure_tolerant (up : List WorkspaceData)
    (st : SyncState) :
    action_sync_workspaces (.ok up) st
      = action_sync_workspaces (.ok (blankFailed up)) st ∧
    (up ≠ [] → ∃ c u,
       (action_sync_workspaces (.ok up) st).1 = .success c u) := by
  constructor
  · cases up with
    | nil => rfl
    | cons w rest =>
      have hbf : blankFailed (w :: rest)
          = (match w.reportsFetch with
             | .error _ => { w with reportsFetch := Except.ok [] }
             | .ok _ => w) :: blankFailed rest := rfl
      rw [action_sync_ok_cons, hbf, action_sync_ok_cons, ← hbf,
          syncAll_blankFailed]
  · intro hne
    cases up with
    | nil => exact absurd rfl hne
    | cons w rest =>
      rw [action_sync_ok_cons]
      exact ⟨_, _, rfl⟩

/-- C8 witness: with one failing and one succeeding workspace, the pass
equals the blanked pass and still reports success. -/
theorem sync_partial_failure_tolerant_witness :
    action_sync_workspaces (.ok [wdFail, wdA]) syncSt0
      = action_sync_workspaces (.ok (blankFailed [wdFail, wdA])) syncSt0 ∧
    (∃ c u, (action_sync_workspaces (.ok [wdFail, wdA]) syncSt0).1
       = .success c u) :=
  ⟨(sync_partial_failure_tolerant [wdFail, wdA] syncSt0).1,
   (sync_partial_failure_tolerant [wdFail, wdA] syncSt0).2 (by decide)⟩

/-- The one-workspace one-report upstream used to exhibit the name-suffix
behaviour, with the external ids fixed and the display names arbitrary. -/
def oneReportUpstream (wsname rname : String) : List WorkspaceData :=
  [{ id := "w1", name := some wsname, isOnDedicatedCapacity := false,
     reportsFetch := .ok [{ id := "r1", name := some rname,
                            embedUrl := some "u1",
                            datasetId := some "d1" }] }]

/-- C10: during a sync pass a newly created Report record is named
[report name] followed by the workspace name in parentheses, but when the
same report is found again on the next pass the update writes the plain
upstream report name, so the disambiguating suffix added at creation is
removed by the next successful sync of that report. -/
theorem sync_report_name_suffix_rewritten (wsname rname : String) :
    (((action_sync_workspaces (.ok (oneReportUpstream wsname rname))
        syncSt0).2).reports.map (·.name))
      = [rname ++ " (" ++ wsname ++ ")"] ∧
    (((action_sync_workspaces (.ok (oneReportUpstream wsname rname))
        (action_sync_workspaces (.ok (oneReportUpstream wsname rname))
          syncSt0).2).2).reports.map (·.name))
      = [rname] := by
  constructor <;> rfl

end PowerBI
